import Mathlib

/-!
Verification of the channel-multiplexing core of a cast-protocol client
(package `net`: `PayloadHeaders` and `Channel` with its `Message`,
`OnMessage`, `Send` and `Request` operations).

The Go code is shallowly embedded:
* `PayloadHeaders` — the header contract `{type, responseType, requestId}`;
  the Go field `RequestId *int` (a nullable pointer) becomes `Option Int`,
  and dereferencing a nil pointer (a panic) is modelled by `getRequestId`
  returning `none`.
* `Channel` — identity triple, the int64 `requestId` counter, the
  in-flight table (a Go `map[int]chan *api.CastMessage`, whose key set we
  model as a `Finset Int`; the channel value registered under a key is
  "the waiter of the Request that inserted that key"), and the listener
  slice.
* `Channel.Message` — the inbound dispatch; it is a pure function from a
  channel state, a wire message and parsed headers to the new channel
  state, an optional correlation delivery `(requestId, message)` (the
  waiter registered under that id receives exactly that message), and the
  ordered list of listener invocations `(listener index, message)`.
  Sequentially, the blocking hand-off `listener <- message` followed by
  the `delete` collapses to recording the delivery and erasing the key;
  the interleaving between the hand-off and a concurrent cancellation is
  modelled separately (`RaceState` below).
* `Channel.Request` — the counter increment (`atomic.AddInt64`, which
  wraps at int64 as `int64Succ` makes explicit), the stamping of the id
  into the payload, the table insert, and the three ways the call can
  finish: `Send` fails, a correlated reply is handed over by dispatch, or
  the context is done (deadline / cancellation). The outcome is an
  environment parameter, since it is decided outside the function.
-/

namespace GoCast

/-- A wire message (`api.CastMessage`); the Go struct holds pointers to
strings, assumed non-nil by the dispatch code, so we use plain fields. -/
structure CastMessage where
  SourceId : String
  DestinationId : String
  Namespace : String
  PayloadUtf8 : String
deriving DecidableEq, Repr

/-- `PayloadHeaders`: `Type string`, `ResponseType string` (empty = absent),
`RequestId *int` (Go nil pointer = `none`). `Type` is a Lean keyword, so the
field is named `type_`. -/
structure PayloadHeaders where
  type_ : String
  ResponseType : String
  RequestId : Option Int
deriving DecidableEq, Repr

/-- `func (h *PayloadHeaders) setRequestId(id int)`: `h.RequestId = &id`. -/
def PayloadHeaders.setRequestId (h : PayloadHeaders) (id : Int) : PayloadHeaders :=
  { h with RequestId := some id }

/-- `func (h *PayloadHeaders) getRequestId() int`: `return *h.RequestId`.
Dereferencing the pointer panics when it is nil; the panic is modelled by
`none`, a normal return by `some`. -/
def PayloadHeaders.getRequestId (h : PayloadHeaders) : Option Int :=
  h.RequestId

/-- One entry of the `listeners` slice: `channelListener{responseType, callback}`.
Go function values have no decidable identity; a listener's callback is
identified by the listener's position in the slice, so only the match key is
carried here. -/
structure channelListener where
  responseType : String
deriving DecidableEq, Repr

/-- The `Channel` struct: identity triple fixed at construction, the int64
request counter, the key set of the in-flight map, and the listener slice.
The Go struct's blank padding field and the `*Connection` back-pointer carry
no dispatch-relevant state and are omitted; `namespace` is a Lean keyword, so
the field is named `namespace_`. -/
structure Channel where
  sourceId : String
  DestinationId : String
  namespace_ : String
  requestId : Int
  inFlight : Finset Int
  listeners : List channelListener
deriving DecidableEq

/-- `NewChannel`: fresh channel with empty listener slice and empty in-flight
map; the Go struct literal leaves `requestId` at its zero value. -/
def NewChannel (sourceId destinationId namespace_ : String) : Channel :=
  { sourceId := sourceId
    DestinationId := destinationId
    namespace_ := namespace_
    requestId := 0
    inFlight := ∅
    listeners := [] }

/-- The addressing filter's discard condition, verbatim from
`Channel.Message` line 62:
`*message.DestinationId != "*" && (*message.SourceId != c.DestinationId || *message.DestinationId != c.sourceId || *message.Namespace != c.namespace)`. -/
def addressMismatch (c : Channel) (m : CastMessage) : Prop :=
  m.DestinationId ≠ "*" ∧
    (m.SourceId ≠ c.DestinationId ∨ m.DestinationId ≠ c.sourceId ∨
      m.Namespace ≠ c.namespace_)

instance (c : Channel) (m : CastMessage) : Decidable (addressMismatch c m) := by
  unfold addressMismatch; infer_instance

/-- The header-validity discard condition from `Channel.Message` line 66:
`headers.Type == "" && headers.ResponseType == ""`. -/
def headerTypeMissing (h : PayloadHeaders) : Prop :=
  h.type_ = "" ∧ h.ResponseType = ""

instance (h : PayloadHeaders) : Decidable (headerTypeMissing h) := by
  unfold headerTypeMissing; infer_instance

/-- The per-listener match condition from `Channel.Message` line 86:
`listener.responseType == headers.Type || (headers.ResponseType != "" && listener.responseType == headers.ResponseType)`. -/
def listenerMatches (l : channelListener) (h : PayloadHeaders) : Prop :=
  l.responseType = h.type_ ∨ (h.ResponseType ≠ "" ∧ l.responseType = h.ResponseType)

instance (l : channelListener) (h : PayloadHeaders) : Decidable (listenerMatches l h) := by
  unfold listenerMatches; infer_instance

/-- The fan-out loop of `Channel.Message` lines 85-89: walk the listener
slice in order, invoking the callback of each matching listener. An
invocation is recorded as `(index of the listener in the slice, message)`. -/
def fanOut (ls : List channelListener) (i : Nat) (h : PayloadHeaders)
    (m : CastMessage) : List (Nat × CastMessage) :=
  match ls with
  | [] => []
  | l :: rest =>
      if listenerMatches l h then (i, m) :: fanOut rest (i + 1) h m
      else fanOut rest (i + 1) h m

/-- The correlation-delivery step of `Channel.Message` lines 71-83: if the
headers carry a nonzero request id and the in-flight map has an entry for
it, deliver the message to that entry's waiter and delete the entry.
Returns the new key set and the delivery performed, if any. -/
def correlate (inFlight : Finset Int) (h : PayloadHeaders) (m : CastMessage) :
    Finset Int × Option (Int × CastMessage) :=
  match h.RequestId with
  | some rid =>
      if rid ≠ 0 then
        if rid ∈ inFlight then (inFlight.erase rid, some (rid, m))
        else (inFlight, none)
      else (inFlight, none)
  | none => (inFlight, none)

/-- `func (c *Channel) Message(message *api.CastMessage, headers *PayloadHeaders)`,
lines 61-90: addressing filter, header-validity filter, correlation
delivery, listener fan-out. Result: the new channel state, the correlation
delivery (`some (rid, msg)` = the waiter registered under `rid` received
`msg`), and the listener invocations in order. A discarded message yields
`(c, none, [])` and no error is ever raised (the function is total). -/
def Channel.Message (c : Channel) (m : CastMessage) (h : PayloadHeaders) :
    Channel × Option (Int × CastMessage) × List (Nat × CastMessage) :=
  if addressMismatch c m then (c, none, [])
  else if headerTypeMissing h then (c, none, [])
  else
    let corr := correlate c.inFlight h m
    ({ c with inFlight := corr.1 }, corr.2, fanOut c.listeners 0 h m)

/-- `func (c *Channel) OnMessage(responseType string, cb func(*api.CastMessage))`,
lines 92-94: append a passive listener to the slice. -/
def Channel.OnMessage (c : Channel) (responseType : String) : Channel :=
  { c with listeners := c.listeners ++ [{ responseType := responseType }] }

/-- Successor on a two's-complement int64, as performed by
`atomic.AddInt64(&c.requestId, 1)`; the subsequent `int(...)` conversion is
the identity on a 64-bit platform. -/
def int64Succ (x : Int) : Int :=
  (x + 1 + 2 ^ 63) % 2 ^ 64 - 2 ^ 63

/-- Errors a `Request` can return, from the error-handling design:
`IOError` from a failed `Send`, `ctx.Err()` on deadline or cancellation. -/
inductive CtxReason where
  | canceled
  | deadlineExceeded
deriving DecidableEq, Repr

inductive ChannelError where
  | ioError
  | ctxErr (r : CtxReason)
deriving DecidableEq, Repr

/-- How an in-flight `Request` finishes; decided by the environment (the
socket, the dispatcher, the caller's context), not by `Request` itself. -/
inductive RequestEnv where
  | sendFails
  | replyDelivered (m : CastMessage)
  | ctxDone (r : CtxReason)
deriving DecidableEq, Repr

/-- Lines 100-108 of `Channel.Request`: take the next id from the atomic
counter, stamp it into the payload, insert the fresh waiter into the
in-flight map. Returns the updated channel, the stamped payload and the
issued id. -/
def requestRegister (c : Channel) (p : PayloadHeaders) :
    Channel × PayloadHeaders × Int :=
  let rid := int64Succ c.requestId
  ({ c with requestId := rid, inFlight := insert rid c.inFlight },
    p.setRequestId rid, rid)

/-- `func (c *Channel) Request(ctx context.Context, payload Payload)`,
lines 100-128. After `requestRegister`:
* `Send` fails → delete the entry, return `IOError` (lines 110-117);
* a reply is handed over on the response channel → return it (lines
  120-121; on this path the entry was already deleted by the dispatcher,
  `Channel.Message` line 80, so the combined effect on the key set is the
  erase);
* `ctx.Done()` fires → delete the entry, return `ctx.Err()` (lines
  122-127). -/
def Channel.Request (c : Channel) (p : PayloadHeaders) (env : RequestEnv) :
    Channel × PayloadHeaders × Except ChannelError CastMessage :=
  let reg := requestRegister c p
  match env with
  | .sendFails =>
      ({ reg.1 with inFlight := reg.1.inFlight.erase reg.2.2 }, reg.2.1,
        .error .ioError)
  | .replyDelivered m =>
      ({ reg.1 with inFlight := reg.1.inFlight.erase reg.2.2 }, reg.2.1, .ok m)
  | .ctxDone r =>
      ({ reg.1 with inFlight := reg.1.inFlight.erase reg.2.2 }, reg.2.1,
        .error (.ctxErr r))

/-!
Interleaving model of the reply/cancellation race (claim C2). One request
with id `r` is in flight (`Send` already succeeded); its reply has just
passed the filters of `Channel.Message`. Two tasks run concurrently:

* the dispatcher, executing lines 71-83 of `Channel.Message`: under the
  mutex read `c.inFlight[r]` (`lookup`), then — with the mutex released —
  perform the blocking unbuffered-channel send `listener <- message`
  (`send`), then under the mutex `delete(c.inFlight, r)` (`del`);
* the requester, blocked in the `select` of lines 119-128 (`selectW`):
  either receive the reply (the rendezvous with the dispatcher's send), or,
  once `ctx.Done()` has fired, take the cancellation branch, which deletes
  the entry (`cancelDel`) and returns `ctx.Err()` (`cancelled`).

The mutex is held only for the individual map operations, which are single
atomic steps here, so it needs no explicit modelling. The unbuffered
channel imposes rendezvous semantics: the dispatcher's send completes only
together with the requester's receive.
-/

/-- Program counter of the dispatcher inside the correlation block. -/
inductive DispatchPC where
  | lookup
  | send
  | del
  | done
  | noop
deriving DecidableEq, Repr

/-- Program counter of the requester inside the `select`. -/
inductive RequestPC where
  | selectW
  | gotReply
  | cancelDel
  | cancelled
deriving DecidableEq, Repr

/-- Joint state of the race: both program counters, whether the in-flight
map still holds the entry for the request id, and whether `ctx.Done()` has
fired. -/
structure RaceState where
  dpc : DispatchPC
  rpc : RequestPC
  tableHasEntry : Bool
  ctxFired : Bool
deriving DecidableEq, Repr

/-- All states reachable from `s` in one atomic step:
* the environment fires the context (deadline elapses / caller cancels);
* `lookup`: atomically read the map; found → proceed to the channel send,
  not found → the `ok` branch is skipped (`noop`);
* `send`/receive rendezvous: enabled only while the requester still waits
  in the `select`; both sides advance together;
* `del`: the dispatcher atomically deletes the entry;
* the requester, once the context fired, takes the cancellation branch and
  atomically deletes the entry, then returns. -/
def raceSteps (s : RaceState) : List RaceState :=
  (if s.ctxFired then [] else [{ s with ctxFired := true }]) ++
  (match s.dpc with
    | .lookup => [{ s with dpc := if s.tableHasEntry then .send else .noop }]
    | .send =>
        match s.rpc with
        | .selectW => [{ s with dpc := .del, rpc := .gotReply }]
        | _ => []
    | .del => [{ s with dpc := .done, tableHasEntry := false }]
    | _ => []) ++
  (match s.rpc with
    | .selectW => if s.ctxFired then [{ s with rpc := .cancelDel }] else []
    | .cancelDel => [{ s with rpc := .cancelled, tableHasEntry := false }]
    | _ => [])

/-- One step of the race. -/
def RaceStep (s s' : RaceState) : Prop :=
  s' ∈ raceSteps s

instance (s s' : RaceState) : Decidable (RaceStep s s') := by
  unfold RaceStep; infer_instance

/-- Zero or more steps. -/
def RaceReach : RaceState → RaceState → Prop :=
  Relation.ReflTransGen RaceStep

/-- Initial state of the race window: dispatcher about to look up, requester
waiting in the `select`, entry present, context not yet done. -/
def raceInit : RaceState :=
  { dpc := .lookup, rpc := .selectW, tableHasEntry := true, ctxFired := false }

/-- The state the race can get stuck in: the requester took the
cancellation branch, deleted the entry and returned, while the dispatcher
is still at the unbuffered-channel send with no receiver left. -/
def raceStuck : RaceState :=
  { dpc := .send, rpc := .cancelled, tableHasEntry := false, ctxFired := true }

/-- Successor of a two's-complement int64 applied `n` times. -/
def iterSucc (x : Int) : Nat → Int
  | 0 => x
  | n + 1 => int64Succ (iterSucc x n)

/-- The request ids issued by a sequence of `Request` calls on one channel:
each call issues the id computed at line 101 (`requestRegister`'s third
component) and leaves the channel in the state `Channel.Request` produces. -/
def issuedIds (c : Channel) : List (PayloadHeaders × RequestEnv) → List Int
  | [] => []
  | (p, env) :: rest =>
      (requestRegister c p).2.2 :: issuedIds (Channel.Request c p env).1 rest

/-! Concrete fixtures used by the witness theorems. -/

/-- A channel as built by `NewChannel("sender-0", "receiver-0", "urn:x-cast:demo")`
after one `OnMessage("STATUS", cb)` registration. -/
def chanEx : Channel :=
  { sourceId := "sender-0"
    DestinationId := "receiver-0"
    namespace_ := "urn:x-cast:demo"
    requestId := 0
    inFlight := ∅
    listeners := [{ responseType := "STATUS" }] }

/-- `chanEx` with one request (id 1) in flight. -/
def chanPendingEx : Channel :=
  { chanEx with inFlight := {1} }

/-- A correctly addressed inbound message for `chanEx`. -/
def msgReplyEx : CastMessage :=
  { SourceId := "receiver-0"
    DestinationId := "sender-0"
    Namespace := "urn:x-cast:demo"
    PayloadUtf8 := "status-body" }

/-- A message neither addressed to `chanEx` nor broadcast. -/
def msgForeignEx : CastMessage :=
  { SourceId := "intruder"
    DestinationId := "someone-else"
    Namespace := "urn:x-cast:demo"
    PayloadUtf8 := "noise" }

/-- A broadcast message whose identity triple does not match `chanEx`. -/
def msgWildEx : CastMessage :=
  { SourceId := "other-sender"
    DestinationId := "*"
    Namespace := "urn:x-cast:other"
    PayloadUtf8 := "broadcast-body" }

/-- An outbound request payload before stamping. -/
def hdrGetStatusEx : PayloadHeaders :=
  { type_ := "GET_STATUS", ResponseType := "", RequestId := none }

/-- Reply headers correlating to request id 1, with a response type. -/
def hdrReplyEx : PayloadHeaders :=
  { type_ := "RECEIVER_STATUS", ResponseType := "STATUS", RequestId := some 1 }

/-- Headers with no correlation id. -/
def hdrNoCorrEx : PayloadHeaders :=
  { type_ := "RECEIVER_STATUS", ResponseType := "STATUS", RequestId := none }

/-- Two requests: one cancelled, one whose send fails. -/
def reqSeqEx : List (PayloadHeaders × RequestEnv) :=
  [(hdrGetStatusEx, .ctxDone .canceled), (hdrGetStatusEx, .sendFails)]

/-! Helper lemmas about the dispatch pipeline. -/

theorem message_valid_eq (c : Channel) (m : CastMessage) (h : PayloadHeaders)
    (haddr : ¬ addressMismatch c m) (hhdr : ¬ headerTypeMissing h) :
    Channel.Message c m h =
      ({ c with inFlight := (correlate c.inFlight h m).1 },
        (correlate c.inFlight h m).2, fanOut c.listeners 0 h m) := by
  simp [Channel.Message, haddr, hhdr]

theorem correlate_hit (t : Finset Int) (h : PayloadHeaders) (m : CastMessage)
    (rid : Int) (hid : h.RequestId = some rid) (h0 : rid ≠ 0) (hmem : rid ∈ t) :
    correlate t h m = (t.erase rid, some (rid, m)) := by
  simp [correlate, hid, h0, hmem]

theorem correlate_miss (t : Finset Int) (h : PayloadHeaders) (m : CastMessage)
    (rid : Int) (hid : h.RequestId = some rid) (hmem : rid ∉ t) :
    correlate t h m = (t, none) := by
  by_cases h0 : rid = 0 <;> simp [correlate, hid, h0, hmem]

theorem message_no_delivery (c : Channel) (m : CastMessage) (h : PayloadHeaders)
    (rid : Int) (hid : h.RequestId = some rid) (hmem : rid ∉ c.inFlight) :
    (Channel.Message c m h).2.1 = none := by
  unfold Channel.Message
  by_cases haddr : addressMismatch c m
  · simp [haddr]
  · by_cases hh : headerTypeMissing h
    · simp [haddr, hh]
    · simp [haddr, hh, correlate_miss c.inFlight h m rid hid hmem]

theorem fanOut_eq_filter (h : PayloadHeaders) (m : CastMessage) :
    ∀ (ls : List channelListener) (i : Nat),
      fanOut ls i h m =
        ((List.enumFrom i ls).filter fun q => decide (listenerMatches q.2 h)).map
          fun q => (q.1, m)
  | [], _ => rfl
  | l :: rest, i => by
      rw [fanOut, List.enumFrom, List.filter_cons]
      by_cases hm : listenerMatches l h
      · simp [hm, fanOut_eq_filter h m rest (i + 1)]
      · simp [hm, fanOut_eq_filter h m rest (i + 1)]

theorem fanOut_mem (h : PayloadHeaders) (m : CastMessage) :
    ∀ (ls : List channelListener) (i0 : Nat) (j : Fin ls.length),
      listenerMatches (ls.get j) h → (i0 + (j : Nat), m) ∈ fanOut ls i0 h m
  | [], _, j, _ => absurd j.isLt (by simp)
  | l :: rest, i0, j, hmatch => by
      rcases j with ⟨jv, hj⟩
      cases jv with
      | zero =>
          have hl : listenerMatches l h := hmatch
          simp [fanOut, hl]
      | succ j' =>
          have hj' : j' < rest.length := Nat.lt_of_succ_lt_succ hj
          have hrec := fanOut_mem h m rest (i0 + 1) ⟨j', hj'⟩ hmatch
          have harith : i0 + (j' + 1) = (i0 + 1) + j' := by omega
          rw [harith]
          unfold fanOut
          by_cases hl : listenerMatches l h
      -- membership in the tail is preserved whether the head matched or not
          · simp [hl, hrec]
          · simp [hl, hrec]

theorem int64Succ_eq_add_one (x : Int) (hlow : -(2 ^ 63) ≤ x)
    (hhigh : x < 2 ^ 63 - 1) : int64Succ x = x + 1 := by
  unfold int64Succ
  have h1 : (0 : Int) ≤ x + 1 + 2 ^ 63 := by linarith
  have h2 : x + 1 + 2 ^ 63 < 2 ^ 64 := by
    have he : (2 : Int) ^ 64 = 2 ^ 63 + 2 ^ 63 := by norm_num
    linarith
  rw [Int.emod_eq_of_lt h1 h2]
  ring

theorem iterSucc_shift (x : Int) : ∀ n : Nat, iterSucc (int64Succ x) n = iterSucc x (n + 1)
  | 0 => rfl
  | n + 1 => congrArg int64Succ (iterSucc_shift x n)

theorem iterSucc_zero_eq (n : Nat) (hn : n < 2 ^ 63) : iterSucc 0 n = (n : Int) := by
  induction n with
  | zero => rfl
  | succ k ih =>
      have hk : k < 2 ^ 63 := Nat.lt_of_succ_lt hn
      have hcast : (k : Int) < 2 ^ 63 - 1 := by
        have : (k : Int) + 1 < 2 ^ 63 := by exact_mod_cast hn
        linarith
      have hlow : -(2 ^ 63 : Int) ≤ (k : Int) := by
        have := Int.natCast_nonneg k
        linarith
      rw [iterSucc, ih hk, int64Succ_eq_add_one (k : Int) hlow hcast]
      push_cast
      ring

theorem request_requestId (c : Channel) (p : PayloadHeaders) (env : RequestEnv) :
    (Channel.Request c p env).1.requestId = int64Succ c.requestId := by
  cases env <;> rfl

theorem issuedIds_eq : ∀ (l : List (PayloadHeaders × RequestEnv)) (c : Channel),
    issuedIds c l = (List.range l.length).map fun k => iterSucc c.requestId (k + 1)
  | [], _ => rfl
  | (p, env) :: rest, c => by
      rw [issuedIds, issuedIds_eq rest (Channel.Request c p env).1,
        request_requestId, List.length_cons, List.range_succ_eq_map,
        List.map_cons, List.map_map]
      congr 1
      refine List.map_congr_left ?_
      intro k _
      simp only [Function.comp_apply]
      exact iterSucc_shift c.requestId (k + 1)

/-! The claims. -/

/-- C1: after `Request` has inserted requestId `r` into the in-flight table
(`requestRegister`), dispatching a message whose headers carry `r` delivers
exactly that wire message to the waiter registered under `r` and removes the
entry; a second dispatch carrying `r` afterwards delivers to no waiter; and
the `Request` call returns exactly the delivered message. -/
theorem c1_request_reply_exactly_once (c : Channel) (p : PayloadHeaders)
    (m m' : CastMessage) (h h' : PayloadHeaders)
    (hrid0 : (requestRegister c p).2.2 ≠ 0)
    (haddr : ¬ addressMismatch (requestRegister c p).1 m)
    (hhdr : ¬ headerTypeMissing h)
    (hhid : h.RequestId = some (requestRegister c p).2.2)
    (hhid' : h'.RequestId = some (requestRegister c p).2.2) :
    (requestRegister c p).2.2 ∈ (requestRegister c p).1.inFlight ∧
    (Channel.Message (requestRegister c p).1 m h).2.1 =
      some ((requestRegister c p).2.2, m) ∧
    (requestRegister c p).2.2 ∉
      (Channel.Message (requestRegister c p).1 m h).1.inFlight ∧
    (Channel.Message (Channel.Message (requestRegister c p).1 m h).1 m' h').2.1
      = none ∧
    (Channel.Request c p (.replyDelivered m)).2.2 = .ok m := by
  have hmem : (requestRegister c p).2.2 ∈ (requestRegister c p).1.inFlight :=
    Finset.mem_insert_self _ _
  have hmsg := message_valid_eq (requestRegister c p).1 m h haddr hhdr
  have hcorr := correlate_hit (requestRegister c p).1.inFlight h m
    (requestRegister c p).2.2 hhid hrid0 hmem
  have hgone : (requestRegister c p).2.2 ∉
      (Channel.Message (requestRegister c p).1 m h).1.inFlight := by
    rw [hmsg]
    simp [hcorr]
  refine ⟨hmem, ?_, hgone, ?_, rfl⟩
  · rw [hmsg]
    simp [hcorr]
  · exact message_no_delivery _ m' h' _ hhid' hgone

/-- C1 witness: a concrete channel, one registered request, one dispatched
reply, one re-dispatched duplicate. -/
theorem c1_witness :
    (requestRegister chanEx hdrGetStatusEx).2.2 ∈
      (requestRegister chanEx hdrGetStatusEx).1.inFlight ∧
    (Channel.Message (requestRegister chanEx hdrGetStatusEx).1 msgReplyEx
        hdrReplyEx).2.1 =
      some ((requestRegister chanEx hdrGetStatusEx).2.2, msgReplyEx) ∧
    (requestRegister chanEx hdrGetStatusEx).2.2 ∉
      (Channel.Message (requestRegister chanEx hdrGetStatusEx).1 msgReplyEx
        hdrReplyEx).1.inFlight ∧
    (Channel.Message
        (Channel.Message (requestRegister chanEx hdrGetStatusEx).1 msgReplyEx
          hdrReplyEx).1 msgReplyEx hdrReplyEx).2.1 = none ∧
    (Channel.Request chanEx hdrGetStatusEx (.replyDelivered msgReplyEx)).2.2 =
      .ok msgReplyEx :=
  c1_request_reply_exactly_once chanEx hdrGetStatusEx msgReplyEx msgReplyEx
    hdrReplyEx hdrReplyEx (by decide) (by decide) (by decide) (by decide)
    (by decide)

/-- C2: in the race between reply dispatch and cancellation there is a
reachable schedule in which the requester cancels, deletes the in-flight
entry and returns, while the dispatcher — whose table lookup had already
succeeded — is stuck forever at the unbuffered-channel send (`raceSteps`
offers no step from `raceStuck`). The losing side does not observe the
entry gone: it takes further action and blocks, contradicting the claim. -/
theorem c2_cancellation_race_blocks_dispatcher :
    RaceReach raceInit raceStuck ∧ raceSteps raceStuck = [] ∧
    raceStuck.dpc = DispatchPC.send ∧ raceStuck.rpc = RequestPC.cancelled ∧
    raceStuck.tableHasEntry = false := by
  refine ⟨?_, by decide, rfl, rfl, rfl⟩
  have s1 : RaceStep raceInit ⟨.lookup, .selectW, true, true⟩ := by decide
  have s2 : RaceStep ⟨.lookup, .selectW, true, true⟩ ⟨.send, .selectW, true, true⟩ := by
    decide
  have s3 : RaceStep ⟨.send, .selectW, true, true⟩ ⟨.send, .cancelDel, true, true⟩ := by
    decide
  have s4 : RaceStep ⟨.send, .cancelDel, true, true⟩ raceStuck := by decide
  exact Relation.ReflTransGen.head s1 (Relation.ReflTransGen.head s2
    (Relation.ReflTransGen.head s3 (Relation.ReflTransGen.head s4
      Relation.ReflTransGen.refl)))

/-- C3: when `Send` fails, `Request` erases the entry it inserted and
returns `IOError`; with a fresh id (the monotone counter guarantees it) the
in-flight table is exactly as before the call. -/
theorem c3_send_failure_no_leak (c : Channel) (p : PayloadHeaders)
    (hfresh : int64Succ c.requestId ∉ c.inFlight) :
    (Channel.Request c p .sendFails).1.inFlight = c.inFlight ∧
    (Channel.Request c p .sendFails).2.2 = .error .ioError := by
  constructor
  · show (insert (int64Succ c.requestId) c.inFlight).erase (int64Succ c.requestId)
      = c.inFlight
    exact Finset.erase_insert hfresh
  · rfl

/-- C3 witness. -/
theorem c3_witness :
    (Channel.Request chanEx hdrGetStatusEx .sendFails).1.inFlight =
      chanEx.inFlight ∧
    (Channel.Request chanEx hdrGetStatusEx .sendFails).2.2 =
      .error .ioError :=
  c3_send_failure_no_leak chanEx hdrGetStatusEx (by decide)

/-- C4: when the context is done before a reply, `Request` returns
`ctx.Err()` and removes its entry; a message dispatched afterwards carrying
that requestId is delivered to no waiter (and dispatch is total, so no
error is ever raised). -/
theorem c4_cancellation_drops_late_reply (c : Channel) (p : PayloadHeaders)
    (r : CtxReason) (hfresh : int64Succ c.requestId ∉ c.inFlight) :
    (Channel.Request c p (.ctxDone r)).2.2 = .error (.ctxErr r) ∧
    (Channel.Request c p (.ctxDone r)).1.inFlight = c.inFlight ∧
    (∀ (m : CastMessage) (h : PayloadHeaders),
      h.RequestId = some (int64Succ c.requestId) →
      (Channel.Message (Channel.Request c p (.ctxDone r)).1 m h).2.1 = none) := by
  have htab : (Channel.Request c p (.ctxDone r)).1.inFlight = c.inFlight := by
    show (insert (int64Succ c.requestId) c.inFlight).erase (int64Succ c.requestId)
      = c.inFlight
    exact Finset.erase_insert hfresh
  refine ⟨rfl, htab, ?_⟩
  intro m h hid
  apply message_no_delivery _ m h _ hid
  rw [htab]
  exact hfresh

/-- C4 witness: a timed-out request on a concrete channel, then a late
reply carrying its id. -/
theorem c4_witness :
    (Channel.Request chanEx hdrGetStatusEx (.ctxDone .deadlineExceeded)).2.2 =
      .error (.ctxErr .deadlineExceeded) ∧
    (Channel.Request chanEx hdrGetStatusEx
        (.ctxDone .deadlineExceeded)).1.inFlight = chanEx.inFlight ∧
    (Channel.Message
        (Channel.Request chanEx hdrGetStatusEx (.ctxDone .deadlineExceeded)).1
        msgReplyEx hdrReplyEx).2.1 = none :=
  have h4 := c4_cancellation_drops_late_reply chanEx hdrGetStatusEx
    .deadlineExceeded (by decide)
  ⟨h4.1, h4.2.1, h4.2.2 msgReplyEx hdrReplyEx (by decide)⟩

/-- C5: on one channel starting at `NewChannel`, the requestIds stamped by a
sequence of `Request` calls are `1, 2, …, n`, hence strictly increasing and
never reused, whatever way each request finishes — as long as the sequence
stays below the int64 wrap-around bound `2^63`; and the id stamped into the
payload is the id inserted into the table. -/
theorem c5_requestIds_strictly_monotone (src dst ns : String)
    (l : List (PayloadHeaders × RequestEnv)) (hlen : l.length < 2 ^ 63) :
    issuedIds (NewChannel src dst ns) l =
      (List.range l.length).map (fun (k : Nat) => (k : Int) + 1) ∧
    (issuedIds (NewChannel src dst ns) l).Pairwise (· < ·) ∧
    (issuedIds (NewChannel src dst ns) l).Nodup ∧
    (∀ (c : Channel) (p : PayloadHeaders),
      (requestRegister c p).2.1.RequestId = some (requestRegister c p).2.2) := by
  have hids : issuedIds (NewChannel src dst ns) l =
      (List.range l.length).map (fun (k : Nat) => (k : Int) + 1) := by
    rw [issuedIds_eq]
    refine List.map_congr_left ?_
    intro k hk
    have hk' : k < l.length := List.mem_range.mp hk
    have hk1 : k + 1 < 2 ^ 63 := by omega
    show iterSucc (NewChannel src dst ns).requestId (k + 1) = (k : Int) + 1
    have h0 : (NewChannel src dst ns).requestId = 0 := rfl
    rw [h0, iterSucc_zero_eq (k + 1) hk1]
    push_cast
    ring
  have hpair : ((List.range l.length).map (fun (k : Nat) => (k : Int) + 1)).Pairwise
      (· < ·) := by
    refine List.Pairwise.map _ ?_ (List.pairwise_lt_range l.length)
    intro a b hab
    have hc : (a : Int) < b := by exact_mod_cast hab
    linarith
  refine ⟨hids, ?_, ?_, fun c p => rfl⟩
  · rw [hids]
    exact hpair
  · rw [hids]
    exact hpair.imp fun hab => ne_of_lt hab

/-- C5 witness: two requests, one cancelled and one whose send fails, still
consume ids 1 and 2. -/
theorem c5_witness :
    issuedIds (NewChannel "sender-0" "receiver-0" "urn:x-cast:demo") reqSeqEx =
      (List.range reqSeqEx.length).map (fun (k : Nat) => (k : Int) + 1) ∧
    (issuedIds (NewChannel "sender-0" "receiver-0" "urn:x-cast:demo")
      reqSeqEx).Pairwise (· < ·) ∧
    (issuedIds (NewChannel "sender-0" "receiver-0" "urn:x-cast:demo")
      reqSeqEx).Nodup ∧
    (∀ (c : Channel) (p : PayloadHeaders),
      (requestRegister c p).2.1.RequestId = some (requestRegister c p).2.2) :=
  c5_requestIds_strictly_monotone "sender-0" "receiver-0" "urn:x-cast:demo"
    reqSeqEx (by norm_num [reqSeqEx])

/-- C6: a message that passes the filters, carries the requestId of a
pending request and matches a registered listener both completes that
request and reaches that listener; and whenever no correlation delivery
happens, dispatch leaves the channel state — in particular the in-flight
table — untouched, so listener fan-out never consumes an entry. -/
theorem c6_correlation_fanout_independent :
    (∀ (c : Channel) (m : CastMessage) (h : PayloadHeaders) (rid : Int)
        (j : Fin c.listeners.length),
      ¬ addressMismatch c m → ¬ headerTypeMissing h →
      h.RequestId = some rid → rid ≠ 0 → rid ∈ c.inFlight →
      listenerMatches (c.listeners.get j) h →
      (Channel.Message c m h).2.1 = some (rid, m) ∧
      ((j : Nat), m) ∈ (Channel.Message c m h).2.2) ∧
    (∀ (c : Channel) (m : CastMessage) (h : PayloadHeaders),
      (Channel.Message c m h).2.1 = none → (Channel.Message c m h).1 = c) := by
  constructor
  · intro c m h rid j haddr hhdr hid h0 hmem hmatch
    have hmsg := message_valid_eq c m h haddr hhdr
    have hcorr := correlate_hit c.inFlight h m rid hid h0 hmem
    constructor
    · rw [hmsg]
      simp [hcorr]
    · rw [hmsg]
      show ((j : Nat), m) ∈ fanOut c.listeners 0 h m
      have hin := fanOut_mem h m c.listeners 0 j hmatch
      simpa using hin
  · intro c m h hnone
    unfold Channel.Message at hnone ⊢
    by_cases haddr : addressMismatch c m
    · simp [haddr]
    · by_cases hh : headerTypeMissing h
      · simp [haddr, hh]
      · simp only [if_neg haddr, if_neg hh] at hnone ⊢
        have htab : (correlate c.inFlight h m).1 = c.inFlight := by
          unfold correlate at hnone ⊢
          cases hid : h.RequestId with
          | none => simp
          | some rid =>
              rw [hid] at hnone
              by_cases h0 : rid = 0
              · simp [h0]
              · by_cases hmem : rid ∈ c.inFlight
                · simp [h0, hmem] at hnone
                · simp [h0, hmem]
        rw [htab]
  -- `{ c with inFlight := c.inFlight } = c` holds by structure eta

/-- C6 witness: one message simultaneously completes pending request 1 and
reaches the listener registered under "STATUS"; a correlation-free message
leaves the channel untouched. -/
theorem c6_witness :
    ((Channel.Message chanPendingEx msgReplyEx hdrReplyEx).2.1 =
        some (1, msgReplyEx) ∧
      ((0 : Nat), msgReplyEx) ∈
        (Channel.Message chanPendingEx msgReplyEx hdrReplyEx).2.2) ∧
    (Channel.Message chanEx msgReplyEx hdrNoCorrEx).1 = chanEx :=
  ⟨c6_correlation_fanout_independent.1 chanPendingEx msgReplyEx hdrReplyEx 1
      ⟨0, by decide⟩ (by decide) (by decide) (by decide) (by decide)
      (by decide) (by decide),
    c6_correlation_fanout_independent.2 chanEx msgReplyEx hdrNoCorrEx
      (by decide)⟩

/-- C7: dispatch proceeds past the addressing filter exactly when the
destination is the wildcard or the identity triple matches; a filtered-out
message produces no state change, no waiter delivery and no listener call;
a wildcard destination passes regardless of the triple. -/
theorem c7_addressing_filter (c : Channel) (m : CastMessage) :
    (¬ addressMismatch c m ↔
      (m.DestinationId = "*" ∨
        (m.SourceId = c.DestinationId ∧ m.DestinationId = c.sourceId ∧
          m.Namespace = c.namespace_))) ∧
    (addressMismatch c m → ∀ h, Channel.Message c m h = (c, none, [])) ∧
    (m.DestinationId = "*" → ¬ addressMismatch c m) := by
  refine ⟨?_, ?_, ?_⟩
  · unfold addressMismatch
    tauto
  · intro hmm h
    simp [Channel.Message, hmm]
  · intro hw
    unfold addressMismatch
    tauto

/-- C7 witness: a foreign message is dropped whole; a wildcard message with
a mismatched triple passes the filter. -/
theorem c7_witness :
    Channel.Message chanEx msgForeignEx hdrReplyEx = (chanEx, none, []) ∧
    ¬ addressMismatch chanEx msgWildEx :=
  ⟨(c7_addressing_filter chanEx msgForeignEx).2.1 (by decide) hdrReplyEx,
    (c7_addressing_filter chanEx msgWildEx).2.2 (by decide)⟩

/-- C8: a message whose headers have both `type` and `responseType` empty is
discarded whole: no state change, no waiter delivery, no listener call, and
(dispatch being a total function) no error surfaces to any caller. -/
theorem c8_headerless_discarded (c : Channel) (m : CastMessage)
    (h : PayloadHeaders) (hty : h.type_ = "") (hrt : h.ResponseType = "") :
    Channel.Message c m h = (c, none, []) := by
  have hmiss : headerTypeMissing h := ⟨hty, hrt⟩
  unfold Channel.Message
  split
  · rfl
  · simp [hmiss]

/-- C8 witness. -/
theorem c8_witness :
    Channel.Message chanEx msgReplyEx
      { type_ := "", ResponseType := "", RequestId := some 1 } =
      (chanEx, none, []) :=
  c8_headerless_discarded chanEx msgReplyEx _ rfl rfl

/-- C9: past the filters, the listener invocations are exactly the
registered listeners whose match key equals `headers.type` or — when
`headers.responseType` is nonempty — equals `headers.responseType`, in
slice (= registration) order; and `OnMessage` appends to the slice. -/
theorem c9_fanout_in_registration_order :
    (∀ (c : Channel) (m : CastMessage) (h : PayloadHeaders),
      ¬ addressMismatch c m → ¬ headerTypeMissing h →
      (Channel.Message c m h).2.2 =
        ((c.listeners.enum.filter fun q => decide (listenerMatches q.2 h)).map
          fun q => (q.1, m))) ∧
    (∀ (c : Channel) (key : String),
      (Channel.OnMessage c key).listeners =
        c.listeners ++ [{ responseType := key }]) := by
  constructor
  · intro c m h haddr hhdr
    rw [message_valid_eq c m h haddr hhdr]
    show fanOut c.listeners 0 h m = _
    rw [fanOut_eq_filter h m c.listeners 0]
    rfl
  · intro c key
    rfl

/-- C9 witness: the status reply fires the single "STATUS" listener of the
concrete channel; registering a second listener appends it. -/
theorem c9_witness :
    (Channel.Message chanEx msgReplyEx hdrReplyEx).2.2 =
      ((chanEx.listeners.enum.filter fun q =>
          decide (listenerMatches q.2 hdrReplyEx)).map
        fun q => (q.1, msgReplyEx)) ∧
    (Channel.OnMessage chanEx "MEDIA_STATUS").listeners =
      chanEx.listeners ++ [{ responseType := "MEDIA_STATUS" }] :=
  ⟨c9_fanout_in_registration_order.1 chanEx msgReplyEx hdrReplyEx (by decide)
      (by decide),
    c9_fanout_in_registration_order.2 chanEx "MEDIA_STATUS"⟩

/-- C10: `setRequestId` then `getRequestId` yields the id just set; on a
header whose `RequestId` pointer was never set (nil), `getRequestId`
dereferences nil — modelled as `none`, i.e. it returns normally only under
the precondition that a requestId is present. -/
theorem c10_requestId_set_get (h : PayloadHeaders) (id : Int) :
    (h.setRequestId id).getRequestId = some id ∧
    (h.RequestId = none → h.getRequestId = none) :=
  ⟨rfl, fun hn => hn⟩

/-- C10 witness. -/
theorem c10_witness :
    (hdrGetStatusEx.setRequestId 7).getRequestId = some 7 ∧
    hdrGetStatusEx.getRequestId = none :=
  ⟨(c10_requestId_set_get hdrGetStatusEx 7).1,
    (c10_requestId_set_get hdrGetStatusEx 7).2 rfl⟩

end GoCast
